import Mathlib

/-!
Verification of the Infralyze normalization/classification core against its
specification.

The definitions below are a shallow embedding of the TypeScript source:

* `ParsedContent` mirrors the recursive `ParsedContent` union of
  `src/types/infra.ts` (string | number | boolean | null | array | object).
  JavaScript numbers are modelled as `Int`: every value the claims exercise
  is integral, and `NaN` is represented by `Option` (`none`).
* `normalizeToInfraData`, `parseContentToString`, `parseContentToNumber`,
  `detectContentType` and the decode pipeline follow
  `src/app/api/parse/route.ts` (the enhanced revision, lines 303-618).
* `validateInfraStructure` follows `src/types/infra.ts`
  (`src/unnamed/part_000`, lines 114-211).
* `generateInfraSummary` and `exportAsJSON` follow `src/utils/fileUtils.ts`.
* `makeMermaidDiagram` follows `src/components/InfraDiagram.tsx` (typed
  revision, lines 70-90).

JavaScript-language primitives used by the source (truthiness, `||` chains,
`Number(string)`, `String(value)`, `Object.entries` insertion order) are
modelled explicitly (`truthy`, `jsOrChain`, `jsNumber`, `Object.entries`
as the association-list order).
-/

/-- The recursive JSON/YAML value type, `ParsedContent` of `src/types/infra.ts`:
string | number | boolean | null | ParsedContent[] | { [key: string]: ParsedContent }. -/
inductive ParsedContent : Type where
  | str (s : String)
  | num (n : Int)
  | bool (b : Bool)
  | null
  | arr (xs : List ParsedContent)
  | obj (kvs : List (String × ParsedContent))

/-- JavaScript truthiness of a `ParsedContent` value: `''`, `0`, `false` and
`null` are falsy; every array and object is truthy. -/
def truthy : ParsedContent → Bool
  | .str s => !s.isEmpty
  | .num n => n != 0
  | .bool b => b
  | .null => false
  | .arr _ => true
  | .obj _ => true

/-- Truthiness of a possibly-`undefined` value (`none` models `undefined`). -/
def truthyOpt : Option ParsedContent → Bool
  | none => false
  | some v => truthy v

/-- A JavaScript `a || b || ...` chain over possibly-`undefined` values: the
first truthy operand, otherwise the last operand as-is. -/
def jsOrChain : List (Option ParsedContent) → Option ParsedContent
  | [] => none
  | [a] => a
  | a :: rest =>
      match a with
      | some v => if truthy v then some v else jsOrChain rest
      | none => jsOrChain rest

/-- Property lookup on a JavaScript object, modelled as first-key lookup in the
association list (keys of a decoded JSON/YAML object are distinct). -/
def jsLookup (kvs : List (String × ParsedContent)) (k : String) : Option ParsedContent :=
  List.lookup k kvs

/-- `isObjectContent` of route.ts: a non-null non-array object. -/
def isObjectContent : ParsedContent → Bool
  | .obj _ => true
  | _ => false

/-- `isArrayContent` of route.ts. -/
def isArrayContent : ParsedContent → Bool
  | .arr _ => true
  | _ => false

/-- `parseContentToString` of route.ts (lines 303-308): undefined/null give `''`,
strings pass through, numbers and booleans are `String(...)`-converted, and
arrays and objects give `''`. -/
def parseContentToString : Option ParsedContent → String
  | none => ""
  | some .null => ""
  | some (.str s) => s
  | some (.num n) => toString n
  | some (.bool b) => if b then "true" else "false"
  | some (.arr _) => ""
  | some (.obj _) => ""

/-- Digit-string value used by `jsNumber`; `none` when the list is empty or
holds a non-digit. -/
def digitsVal (cs : List Char) : Option Nat :=
  if cs.isEmpty then none
  else if cs.all Char.isDigit then
    some (cs.foldl (fun a c => a * 10 + (c.toNat - '0'.toNat)) 0)
  else none

/-- Whitespace trimming on both ends of a character list (the JavaScript
`String.prototype.trim`). -/
def trimChars (cs : List Char) : List Char :=
  ((cs.dropWhile Char.isWhitespace).reverse.dropWhile Char.isWhitespace).reverse

/-- The JavaScript `Number(string)` conversion on the integer fragment:
whitespace is trimmed, the empty (or all-whitespace) string is `0`, an
optionally signed decimal digit string is its value, and everything else is
`NaN`, modelled as `none`. -/
def jsNumber (s : String) : Option Int :=
  match trimChars s.toList with
  | [] => some 0
  | '-' :: rest => (digitsVal rest).map (fun n => -(n : Int))
  | '+' :: rest => (digitsVal rest).map (fun n => (n : Int))
  | cs => (digitsVal cs).map (fun n => (n : Int))

/-- `parseContentToNumber` of route.ts (lines 311-319): undefined/null give
`undefined`, numbers pass through, strings go through `Number(...)` with `NaN`
mapped to `undefined`, and everything else gives `undefined`. -/
def parseContentToNumber : Option ParsedContent → Option Int
  | none => none
  | some .null => none
  | some (.num n) => some n
  | some (.str s) => jsNumber s
  | some (.bool _) => none
  | some (.arr _) => none
  | some (.obj _) => none

/-- A normalized service record (`InfraService`); every field the source
assigns is a string produced by `parseContentToString`. -/
structure InfraService : Type where
  name : String
  type : String
  runtime : String
  buildCommand : String
  startCommand : String
  rootDir : String
deriving DecidableEq

/-- A normalized database record (`InfraDatabase`). -/
structure InfraDatabase : Type where
  name : String
  type : String
  version : String
  host : String
  port : Option Int
deriving DecidableEq

/-- The canonical `InfraData` shape: each section is absent (`none`) when the
source never assigned it. The environment mapping keeps `Object.entries`
order as an association list. -/
structure InfraData : Type where
  services : Option (List InfraService)
  databases : Option (List InfraDatabase)
  environment : Option (List (String × String))
deriving DecidableEq

/-- JavaScript `s1 || s2` on strings: the empty string falls through. -/
def strOr (s d : String) : String :=
  if s.isEmpty then d else s

/-- The key/value list of an object, `{}` for anything else: models
`isObjectContent(x) ? x : {}` of route.ts. -/
def asObj : ParsedContent → List (String × ParsedContent)
  | .obj kvs => kvs
  | _ => []

/-- `parseContentToString(item.k1 || item.k2 || ...)` for an alias-key list. -/
def fieldStr (si : List (String × ParsedContent)) (ks : List String) : String :=
  parseContentToString (jsOrChain (ks.map (jsLookup si)))

/-- One service built from a service-like object, with the given defaults for
`name` and `type` (route.ts lines 407-416 / 425-435). -/
def mkServiceFrom (nameDefault typeDefault : String) (si : List (String × ParsedContent)) :
    InfraService :=
  ⟨strOr (fieldStr si ["name", "id"]) nameDefault,
   strOr (fieldStr si ["type", "kind"]) typeDefault,
   fieldStr si ["runtime", "image", "version"],
   fieldStr si ["buildCommand", "build"],
   fieldStr si ["startCommand", "command", "cmd"],
   fieldStr si ["rootDir", "workingDir", "path"]⟩

/-- One service built from a keyed-object entry: the key is the name verbatim
(route.ts lines 439-449 and the fallback at 498-510). -/
def mkKeyedService (typeDefault key : String) (v : ParsedContent) : InfraService :=
  ⟨key,
   strOr (fieldStr (asObj v) ["type", "kind"]) typeDefault,
   fieldStr (asObj v) ["runtime", "image", "version"],
   fieldStr (asObj v) ["buildCommand", "build"],
   fieldStr (asObj v) ["startCommand", "command", "cmd"],
   fieldStr (asObj v) ["rootDir", "workingDir", "path"]⟩

/-- One database built from a database-like object (route.ts lines 456-465). -/
def mkDatabaseFrom (di : List (String × ParsedContent)) : InfraDatabase :=
  ⟨strOr (fieldStr di ["name", "id"]) "Unknown Database",
   strOr (fieldStr di ["type", "engine"]) "database",
   fieldStr di ["version"],
   fieldStr di ["host", "hostname"],
   parseContentToNumber (jsLookup di "port")⟩

/-- One database built from a keyed-object entry (route.ts lines 468-477). -/
def mkKeyedDatabase (key : String) (v : ParsedContent) : InfraDatabase :=
  ⟨key,
   strOr (fieldStr (asObj v) ["type", "engine"]) "database",
   fieldStr (asObj v) ["version"],
   fieldStr (asObj v) ["host", "hostname"],
   parseContentToNumber (jsLookup (asObj v) "port")⟩

/-- The services section of an object root (route.ts lines 422-451): the
`services || applications || apps` chain, an array mapping to defaulted
records, a keyed object mapping each entry, any other truthy value leaving
the section unassigned. -/
def extractServices (kvs : List (String × ParsedContent)) : Option (List InfraService) :=
  let sv := jsOrChain [jsLookup kvs "services", jsLookup kvs "applications", jsLookup kvs "apps"]
  if truthyOpt sv then
    match sv with
    | some (.arr items) => some (items.map (fun it => mkServiceFrom "Unknown Service" "service" (asObj it)))
    | some (.obj skvs) => some (skvs.map (fun p => mkKeyedService "service" p.1 p.2))
    | _ => none
  else none

/-- The databases section of an object root (route.ts lines 453-479):
the `databases || db || data` chain with array and keyed-object forms. -/
def extractDatabases (kvs : List (String × ParsedContent)) : Option (List InfraDatabase) :=
  let dv := jsOrChain [jsLookup kvs "databases", jsLookup kvs "db", jsLookup kvs "data"]
  if truthyOpt dv then
    match dv with
    | some (.arr items) => some (items.map (fun it => mkDatabaseFrom (asObj it)))
    | some (.obj dkvs) => some (dkvs.map (fun p => mkKeyedDatabase p.1 p.2))
    | _ => none
  else none

/-- The environment section of an object root (route.ts lines 481-491):
the `environment || env || envVars || variables` chain; only an object is
accepted, and every value is stringified with `parseContentToString`. -/
def extractEnvironment (kvs : List (String × ParsedContent)) : Option (List (String × String)) :=
  let ev := jsOrChain [jsLookup kvs "environment", jsLookup kvs "env",
                       jsLookup kvs "envVars", jsLookup kvs "variables"]
  if truthyOpt ev then
    match ev with
    | some (.obj ekvs) => some (ekvs.map (fun p => (p.1, parseContentToString (some p.2))))
    | _ => none
  else none

/-- The fallback scan (route.ts lines 494-515): every top-level value that is
itself an object becomes an implicit service named after its key with type
defaulted to `component`; the section stays unassigned when nothing matched. -/
def fallbackServices (kvs : List (String × ParsedContent)) : Option (List InfraService) :=
  let ps := kvs.filterMap (fun p =>
    match p.2 with
    | .obj _ => some (mkKeyedService "component" p.1 p.2)
    | _ => none)
  if ps.isEmpty then none else some ps

/-- The array-root mapping (route.ts lines 405-417): each element becomes a
service, named `Service {index+1}` by default with type defaulted to
`unknown`. -/
def arrayRootServices (items : List ParsedContent) : List InfraService :=
  items.enum.map (fun p => mkServiceFrom ("Service " ++ toString (p.1 + 1)) "unknown" (asObj p.2))

/-- `normalizeToInfraData` of route.ts (lines 397-519). `none` models the
`undefined` argument; any non-object non-array input yields the empty result.
On an object root the three sections are extracted independently and the
fallback scan runs only when all three stayed unassigned. -/
def normalizeToInfraData : Option ParsedContent → InfraData
  | some (.arr items) => ⟨some (arrayRootServices items), none, none⟩
  | some (.obj kvs) =>
      let s0 := extractServices kvs
      let d0 := extractDatabases kvs
      let e0 := extractEnvironment kvs
      ⟨if s0.isNone && d0.isNone && e0.isNone then fallbackServices kvs else s0, d0, e0⟩
  | _ => ⟨none, none, none⟩

/-! ### Structure classifier (`validateInfraStructure`, src/types/infra.ts lines 114-211) -/

/-- The confidence levels of a `ValidationResult`, ordered low < medium < high. -/
inductive Confidence : Type where
  | low
  | medium
  | high
deriving DecidableEq

/-- Numeric rank of a confidence level, for stating monotonicity. -/
def confRank : Confidence → Nat
  | .low => 0
  | .medium => 1
  | .high => 2

/-- `ValidationResult` of src/types/infra.ts. -/
structure ValidationResult : Type where
  isValid : Bool
  confidence : Confidence
  suggestions : List String
  detectedFormat : Option String
deriving DecidableEq

/-- Kubernetes tag keys (`k8sKeys` in the source). -/
def k8sKeys : List String := ["apiVersion", "kind", "metadata", "spec"]

/-- Docker Compose tag keys (`dockerKeys` in the source). -/
def dockerKeys : List String := ["version", "services", "volumes", "networks"]

/-- Terraform tag keys (`tfKeys` in the source). -/
def tfKeys : List String := ["resource", "provider", "variable", "output"]

/-- Generic infrastructure tag keys (`infraKeys` in the source). -/
def infraKeys : List String := ["services", "applications", "apps", "components", "containers"]

/-- Database tag keys (`dbKeys` in the source). -/
def dbKeys : List String := ["databases", "db", "data", "storage"]

/-- Configuration tag keys (`configKeys` in the source). -/
def configKeys : List String := ["environment", "env", "config", "variables"]

/-- The top-level key list of an object (`Object.keys`). -/
def objKeys (kvs : List (String × ParsedContent)) : List String :=
  kvs.map Prod.fst

/-- `tags.some(key => keys.includes(key))` of the source. -/
def hasAnyKey (kvs : List (String × ParsedContent)) (tags : List String) : Bool :=
  tags.any (fun t => (objKeys kvs).contains t)

/-- Kubernetes contribution to the match score: +3 when any Kubernetes tag key
is present. -/
def k8sContrib (kvs : List (String × ParsedContent)) : Nat :=
  if hasAnyKey kvs k8sKeys then 3 else 0

/-- Docker Compose contribution: +3 when some Docker Compose tag key is present
AND `obj.services` is truthy (the source tests the value, not mere key
presence). -/
def dockerContrib (kvs : List (String × ParsedContent)) : Nat :=
  if hasAnyKey kvs dockerKeys && truthyOpt (jsLookup kvs "services") then 3 else 0

/-- Terraform contribution: +2 when any Terraform tag key is present. -/
def tfContrib (kvs : List (String × ParsedContent)) : Nat :=
  if hasAnyKey kvs tfKeys then 2 else 0

/-- Generic infrastructure contribution: +2 when any generic tag key is present. -/
def infraContrib (kvs : List (String × ParsedContent)) : Nat :=
  if hasAnyKey kvs infraKeys then 2 else 0

/-- Database contribution: +1 when any database tag key is present. -/
def dbContrib (kvs : List (String × ParsedContent)) : Nat :=
  if hasAnyKey kvs dbKeys then 1 else 0

/-- Configuration contribution: +1 when any configuration tag key is present. -/
def configContrib (kvs : List (String × ParsedContent)) : Nat :=
  if hasAnyKey kvs configKeys then 1 else 0

/-- The accumulated `matches` counter of `validateInfraStructure`: the source
adds each contribution in sequence, which equals this sum. -/
def matchScore (kvs : List (String × ParsedContent)) : Nat :=
  k8sContrib kvs + dockerContrib kvs + tfContrib kvs + infraContrib kvs +
    dbContrib kvs + configContrib kvs

/-- The `detectedFormats` list: format names pushed in source order
(Kubernetes, Docker Compose, Terraform). -/
def detectedFormats (kvs : List (String × ParsedContent)) : List String :=
  (if hasAnyKey kvs k8sKeys then ["Kubernetes"] else []) ++
  (if hasAnyKey kvs dockerKeys && truthyOpt (jsLookup kvs "services") then ["Docker Compose"] else []) ++
  (if hasAnyKey kvs tfKeys then ["Terraform"] else [])

/-- Confidence from the match score: ≥3 high, ≥1 medium, otherwise low. -/
def confOf (m : Nat) : Confidence :=
  if m ≥ 3 then .high else if m ≥ 1 then .medium else .low

/-- `detectedFormat` from the match score and format list: the " + "-join when
the score reached a format, `Generic Config` for a medium score with no named
format, `Unknown Format` for a zero score. -/
def formatOf (m : Nat) (fmts : List String) : Option String :=
  if m ≥ 3 then some (String.intercalate " + " fmts)
  else if m ≥ 1 then some (if fmts.isEmpty then "Generic Config" else String.intercalate " + " fmts)
  else some "Unknown Format"

/-- Substring test on character lists (JavaScript `String.prototype.includes`). -/
def charsContain (sub : List Char) : List Char → Bool
  | [] => sub.isEmpty
  | c :: rest => List.isPrefixOf sub (c :: rest) || charsContain sub rest

/-- `key.includes(sub)` of the source. -/
def strIncludes (s sub : String) : Bool :=
  charsContain sub.toList s.toList

/-- The sensitive-key scan: some top-level key name contains `password`,
`secret` or `key` as a substring. -/
def hasSensitiveKey (kvs : List (String × ParsedContent)) : Bool :=
  (objKeys kvs).any (fun k =>
    strIncludes k "password" || strIncludes k "secret" || strIncludes k "key")

/-- The suggestions pushed for an object input, in source order: one per
matched rule, the low-score note, the large-configuration note, the
sensitive-data warning. -/
def objSuggestions (kvs : List (String × ParsedContent)) : List String :=
  (if hasAnyKey kvs k8sKeys then
      ["Kubernetes manifest detected - extracting container and service information"] else []) ++
  (if hasAnyKey kvs dockerKeys && truthyOpt (jsLookup kvs "services") then
      ["Docker Compose file detected - excellent structure for multi-service applications"] else []) ++
  (if hasAnyKey kvs tfKeys then
      ["Terraform configuration detected - extracting infrastructure resources"] else []) ++
  (if hasAnyKey kvs infraKeys then
      ["Service definitions found - structure looks good"] else []) ++
  (if hasAnyKey kvs dbKeys then
      ["Database configurations detected"] else []) ++
  (if hasAnyKey kvs configKeys then
      ["Environment variables found"] else []) ++
  (if matchScore kvs ≥ 1 then []
   else ["No standard infrastructure patterns detected, but will attempt to extract any meaningful data"]) ++
  (if (objKeys kvs).length > 10 then
      ["Large configuration detected - consider organizing into sections"] else []) ++
  (if hasSensitiveKey kvs then
      ["⚠️  Potential sensitive data detected - ensure secrets are properly managed"] else [])

/-- `validateInfraStructure` of src/types/infra.ts (lines 114-211): scalars and
null are invalid with low confidence; an array is valid with medium confidence
and format `Service Array`; an object is scored against the six tag sets. -/
def validateInfraStructure : ParsedContent → ValidationResult
  | .arr _ =>
      ⟨true, .medium,
       ["Detected array of services - consider wrapping in a \"services\" key for better organization"],
       some "Service Array"⟩
  | .obj kvs =>
      ⟨true, confOf (matchScore kvs), objSuggestions kvs,
       formatOf (matchScore kvs) (detectedFormats kvs)⟩
  | _ =>
      ⟨false, .low, ["File should contain a valid JSON or YAML object structure"], none⟩

/-! ### Content-type classifier and decode pipeline (route.ts lines 332-352 and 521-618) -/

/-- The effective content type. -/
inductive CType : Type where
  | json
  | yaml
  | unknown
deriving DecidableEq

/-- Lower-casing of a filename (`filename.toLowerCase()`), on ASCII. -/
def jsToLower (s : String) : String :=
  String.mk (s.toList.map Char.toLower)

/-- `s.endsWith(suffix)` over character lists. -/
def jsEndsWith (s suffix : String) : Bool :=
  List.isSuffixOf suffix.toList s.toList

/-- The `---` document-separator test (`trimmedContent.includes('---')`). -/
def hasTripleDash : List Char → Bool
  | '-' :: '-' :: '-' :: _ => true
  | _ :: rest => hasTripleDash rest
  | [] => false

/-- First character class of the YAML key regex `[a-zA-Z_]`. -/
def isWordStart (c : Char) : Bool :=
  ('a' ≤ c && c ≤ 'z') || ('A' ≤ c && c ≤ 'Z') || c = '_'

/-- Continuation class of the YAML key regex `[a-zA-Z0-9_]`. -/
def isWordChar (c : Char) : Bool :=
  isWordStart c || ('0' ≤ c && c ≤ '9')

/-- After the first word character: consume `[a-zA-Z0-9_]*`, then require `:`
followed by a whitespace character. -/
def keyColonAfter : List Char → Bool
  | [] => false
  | c :: rest =>
      if isWordChar c then keyColonAfter rest
      else if c = ':' then
        match rest with
        | c2 :: _ => c2.isWhitespace
        | [] => false
      else false

/-- The anchored regex `/^[a-zA-Z_][a-zA-Z0-9_]*:\s/` of `detectContentType`. -/
def keyColonTest (cs : List Char) : Bool :=
  match cs with
  | c :: rest => isWordStart c && keyColonAfter rest
  | [] => false

/-- The anchored regex `/^\s*-\s/` of `detectContentType`. -/
def dashItemTest : List Char → Bool
  | [] => false
  | c :: rest =>
      if c.isWhitespace then dashItemTest rest
      else if c = '-' then
        match rest with
        | c2 :: _ => c2.isWhitespace
        | [] => false
      else false

/-- `detectContentType` of route.ts (lines 332-352): extension first, then
brace/bracket enclosure, then YAML indicators, else unknown. -/
def detectContentType (content filename : String) : CType :=
  let lower := jsToLower filename
  if jsEndsWith lower ".json" then .json
  else if jsEndsWith lower ".yaml" || jsEndsWith lower ".yml" then .yaml
  else
    let t := trimChars content.toList
    if List.isPrefixOf ['\x7b'] t && List.isSuffixOf ['\x7d'] t then .json
    else if List.isPrefixOf ['['] t && List.isSuffixOf [']'] t then .json
    else if hasTripleDash t || keyColonTest t || dashItemTest t then .yaml
    else .unknown

/-- The suggestion `safeJsonParseEnhanced` derives from a JSON error message
(route.ts lines 355-373); the empty string models the absent suggestion. -/
def jsonSuggestion (e : String) : String :=
  if strIncludes e "Unexpected token" then
    "Check for missing quotes, commas, or brackets in your JSON structure"
  else if strIncludes e "Unexpected end" then
    "Your JSON appears to be incomplete - check for missing closing brackets or braces"
  else if strIncludes e "position" then
    "There's a syntax error in your JSON - try validating it with a JSON formatter"
  else ""

/-- The ` (suggestion)` suffix appended to combined error strings when the
JSON suggestion is non-empty. -/
def sugSuffix (e : String) : String :=
  if (jsonSuggestion e).isEmpty then "" else " (" ++ jsonSuggestion e ++ ")"

/-- The decode outcome of the `POST` handler: effective type, decoded tree when
one decode succeeded, combined error string otherwise. -/
structure DecodeOutcome : Type where
  etype : CType
  tree : Option ParsedContent
  parseError : Option String

/-- The decode/fallback logic of `POST` (route.ts lines 540-605), parameterized
by the outcomes of `JSON.parse` and `YAML.parse` on the uploaded content
(external parsers; `.ok` a decoded tree, `.error` the parser's message).
A `json` verdict tries JSON then falls back to YAML (overriding the effective
type); a `yaml` verdict does the reverse; `unknown` tries JSON then YAML. -/
def decodePipeline (content filename : String)
    (jsonRes yamlRes : Except String ParsedContent) : DecodeOutcome :=
  match detectContentType content filename with
  | CType.json =>
      match jsonRes with
      | Except.ok d => ⟨CType.json, some d, none⟩
      | Except.error e =>
          match yamlRes with
          | Except.ok d => ⟨CType.yaml, some d, none⟩
          | Except.error e2 =>
              ⟨CType.json, none,
               some ("JSON parse error: " ++ e ++ sugSuffix e ++ ". YAML parse error: " ++ e2)⟩
  | CType.yaml =>
      match yamlRes with
      | Except.ok d => ⟨CType.yaml, some d, none⟩
      | Except.error e2 =>
          match jsonRes with
          | Except.ok d => ⟨CType.json, some d, none⟩
          | Except.error e =>
              ⟨CType.yaml, none,
               some ("YAML parse error: " ++ e2 ++ ". JSON parse error: " ++ e ++ sugSuffix e)⟩
  | CType.unknown =>
      match jsonRes with
      | Except.ok d => ⟨CType.json, some d, none⟩
      | Except.error e =>
          match yamlRes with
          | Except.ok d => ⟨CType.yaml, some d, none⟩
          | Except.error e2 =>
              ⟨CType.unknown, none,
               some ("Could not parse as JSON or YAML. JSON error: " ++ e ++ sugSuffix e ++
                     ". YAML error: " ++ e2)⟩

/-! ### Summary generation and JSON export (src/utils/fileUtils.ts) -/

/-- The flattened summary produced by `generateInfraSummary`: counts plus the
de-duplicated detail lists (the source collects them in `Set`s and converts
with `Array.from`, preserving insertion order). -/
structure InfraSummary : Type where
  services : Nat
  databases : Nat
  environments : Nat
  totalComponents : Nat
  serviceTypes : List String
  databaseTypes : List String
  runtimes : List String
deriving DecidableEq

/-- `Set.prototype.add` with `Array.from` insertion order: append when absent. -/
def addToSet (l : List String) (x : String) : List String :=
  if l.contains x then l else l ++ [x]

/-- The `serviceTypes` set: every truthy (non-empty) `type` of a service,
de-duplicated in first-occurrence order. -/
def collectServiceTypes (svcs : List InfraService) : List String :=
  svcs.foldl (fun acc s => if s.type.isEmpty then acc else addToSet acc s.type) []

/-- The `runtimes` set over the services. -/
def collectRuntimes (svcs : List InfraService) : List String :=
  svcs.foldl (fun acc s => if s.runtime.isEmpty then acc else addToSet acc s.runtime) []

/-- The `databaseTypes` set over the databases. -/
def collectDbTypes (dbs : List InfraDatabase) : List String :=
  dbs.foldl (fun acc d => if d.type.isEmpty then acc else addToSet acc d.type) []

/-- `generateInfraSummary` of fileUtils.ts (lines 71-117): counts of services,
databases and environment keys, the component total, and the detail lists.
An absent section counts as zero / empty. -/
def generateInfraSummary (data : InfraData) : InfraSummary :=
  ⟨(data.services.getD []).length,
   (data.databases.getD []).length,
   (data.environment.getD []).length,
   (data.services.getD []).length + (data.databases.getD []).length,
   collectServiceTypes (data.services.getD []),
   collectDbTypes (data.databases.getD []),
   collectRuntimes (data.services.getD [])⟩

/-- The JSON tree of a summary object, field for field in source order.
`exportAsJSON` serializes its argument with `JSON.stringify(data, null, 2)`;
re-parsing that text with `JSON.parse` yields exactly this tree, since the
summary is plain finite data (stringify-then-parse is the identity on it). -/
def summaryJson (s : InfraSummary) : ParsedContent :=
  .obj [("services", .num (Int.ofNat s.services)),
        ("databases", .num (Int.ofNat s.databases)),
        ("environments", .num (Int.ofNat s.environments)),
        ("totalComponents", .num (Int.ofNat s.totalComponents)),
        ("details", .obj
          [("serviceTypes", .arr (s.serviceTypes.map ParsedContent.str)),
           ("databaseTypes", .arr (s.databaseTypes.map ParsedContent.str)),
           ("runtimes", .arr (s.runtimes.map ParsedContent.str))])]

/-- `exportAsJSON` (fileUtils.ts lines 30-33) followed by `JSON.parse` of the
produced text: the JSON tree of the exported value. -/
def exportAsJSONReparse (s : InfraSummary) : ParsedContent :=
  summaryJson s

/-- Field access on a re-parsed JSON tree. -/
def jsonField : ParsedContent → String → Option ParsedContent
  | .obj kvs, k => jsLookup kvs k
  | _, _ => none

/-! ### Diagram description builder (src/components/InfraDiagram.tsx lines 70-90) -/

/-- The synthetic environment node line `  env[/"Env Vars"/]`. -/
def envNodeLine : String := "  env[/\"Env Vars\"/]"

/-- The environment edge line `  svc0 --> env`. -/
def envEdgeLine : String := "  svc0 --> env"

/-- A service node line: `  svc{i}["{name || "Service"}\n({runtime})"]`
(the template writes a literal backslash-n). Right-nested appends. -/
def svcNodeLine (i : Nat) (svc : InfraService) : String :=
  "  svc" ++ (toString i ++ ("[\"" ++ (strOr svc.name "Service" ++ ("\\n(" ++ (svc.runtime ++ ")\"]")))))

/-- A database node line: `  db{j}[(DB: {name || "Database"})]`. -/
def dbNodeLine (j : Nat) (db : InfraDatabase) : String :=
  "  db" ++ (toString j ++ ("[(DB: " ++ (strOr db.name "Database" ++ ")]")))

/-- A database edge line: `  svc0 --> db{j}`. -/
def dbEdgeLine (j : Nat) : String :=
  "  svc0 --> db" ++ toString j

/-- `data.services[0]` is truthy: the services array is present and non-empty
(a record element is always truthy). -/
def hasFirstService (data : InfraData) : Bool :=
  match data.services with
  | some (_ :: _) => true
  | _ => false

/-- The line list built by `makeMermaidDiagram`: the header, one node per
service, one node per database each followed by an edge from `svc0` when a
first service exists, and the environment node and edge whenever the
`environment` field is present (any object, even empty, is truthy). -/
def makeMermaidLines (data : InfraData) : List String :=
  ["graph TD"] ++
  (match data.services with
   | some svcs => svcs.enum.map (fun p => svcNodeLine p.1 p.2)
   | none => []) ++
  (match data.databases with
   | some dbs => dbs.enum.flatMap
      (fun p => [dbNodeLine p.1 p.2] ++ (if hasFirstService data then [dbEdgeLine p.1] else []))
   | none => []) ++
  (match data.environment with
   | some _ => [envNodeLine, envEdgeLine]
   | none => [])

/-- `makeMermaidDiagram` of InfraDiagram.tsx: the lines joined with newlines. -/
def makeMermaidDiagram (data : InfraData) : String :=
  String.intercalate "\n" (makeMermaidLines data)

/-! ### Claim theorems -/

/-- The C1 scenario input:
`{"services":[{"name":"api","runtime":"node:18"}],"databases":[{"type":"postgres","port":"5432"}]}`. -/
def c1Input : ParsedContent :=
  .obj [("services", .arr [.obj [("name", .str "api"), ("runtime", .str "node:18")]]),
        ("databases", .arr [.obj [("type", .str "postgres"), ("port", .str "5432")]])]

/-- C1 counterexample: on the scenario input the single normalized service has
type `"service"`, not `"unknown"` as claimed — the object-root services path
defaults `type` to `"service"` (route.ts line 429); `"unknown"` is the default
of the array-root path only. -/
theorem c1_scenario_counterexample :
    (normalizeToInfraData (some c1Input)).services =
      some [⟨"api", "service", "node:18", "", "", ""⟩] ∧
    ((normalizeToInfraData (some c1Input)).services.getD []).map InfraService.type ≠ ["unknown"] :=
  ⟨by decide, by decide⟩

/-- C1 (amended): normalization of the scenario input produces exactly one
service named `api` with runtime `node:18` and type `"service"`, and exactly
one database named `Unknown Database` of type `postgres` with the string port
`"5432"` coerced to the number 5432. -/
theorem c1_scenario_normalization :
    normalizeToInfraData (some c1Input) =
      ⟨some [⟨"api", "service", "node:18", "", "", ""⟩],
       some [⟨"Unknown Database", "postgres", "", "", some 5432⟩], none⟩ := by
  decide

/-- C2: `normalizeToInfraData` is a total function of the embedded input type
(totality is by construction of the embedding — no exception path exists in
the source either), and `undefined` or any non-object non-array input yields
the empty canonical result. -/
theorem c2_normalize_total_empty_on_non_object :
    ∀ d : Option ParsedContent,
      (∀ c, d = some c → isObjectContent c = false ∧ isArrayContent c = false) →
      normalizeToInfraData d = ⟨none, none, none⟩ := by
  intro d h
  match d with
  | none => rfl
  | some (.str s) => rfl
  | some (.num n) => rfl
  | some (.bool b) => rfl
  | some .null => rfl
  | some (.arr xs) =>
      have hx := h (.arr xs) rfl
      simp [isArrayContent] at hx
  | some (.obj kvs) =>
      have hx := h (.obj kvs) rfl
      simp [isObjectContent] at hx

/-- Witness for C2 at a scalar input. -/
theorem c2_witness :
    normalizeToInfraData (some (ParsedContent.str "just text")) = ⟨none, none, none⟩ :=
  c2_normalize_total_empty_on_non_object (some (ParsedContent.str "just text"))
    (fun c hc => by cases hc; exact ⟨rfl, rfl⟩)

/-- C3: for every file whose (lower-cased) name ends in `.json`, the
content-type classifier reports `json`, and when JSON parsing fails but YAML
parsing succeeds the decode pipeline uses the YAML tree and overrides the
effective type to `yaml`. -/
theorem c3_json_extension_yaml_fallback :
    ∀ (content filename e : String) (t : ParsedContent),
      jsEndsWith (jsToLower filename) ".json" = true →
      detectContentType content filename = CType.json ∧
      decodePipeline content filename (Except.error e) (Except.ok t) =
        ⟨CType.yaml, some t, none⟩ := by
  intro content filename e t h
  have hdet : detectContentType content filename = CType.json := by
    unfold detectContentType
    simp [h]
  exact ⟨hdet, by unfold decodePipeline; rw [hdet]⟩

/-- Witness for C3: `config.json` holding YAML-only content. -/
theorem c3_witness :
    detectContentType "key: value" "config.json" = CType.json ∧
    decodePipeline "key: value" "config.json" (Except.error "Unexpected token k")
        (Except.ok (ParsedContent.obj [("key", ParsedContent.str "value")])) =
      ⟨CType.yaml, some (ParsedContent.obj [("key", ParsedContent.str "value")]), none⟩ :=
  c3_json_extension_yaml_fallback "key: value" "config.json" "Unexpected token k"
    (ParsedContent.obj [("key", ParsedContent.str "value")]) (by decide)

/-- The C7 scenario input `{"foo": "bar"}`. -/
def c7Input : ParsedContent := .obj [("foo", .str "bar")]

/-- C7: on `{"foo": "bar"}` normalization returns the empty canonical result
(all three sections absent) and the structure classifier reports confidence
low, detected format `Unknown Format`, and `isValid = true`. -/
theorem c7_unrecognized_object_scenario :
    normalizeToInfraData (some c7Input) = ⟨none, none, none⟩ ∧
    (validateInfraStructure c7Input).confidence = Confidence.low ∧
    (validateInfraStructure c7Input).detectedFormat = some "Unknown Format" ∧
    (validateInfraStructure c7Input).isValid = true := by
  decide

/-- C8: serializing the summary of any canonical value with `exportAsJSON` and
re-parsing the JSON yields a `services` field equal to the length of the
canonical `services` array. -/
theorem c8_summary_roundtrip_service_count :
    ∀ (data : InfraData) (svcs : List InfraService),
      data.services = some svcs →
      jsonField (exportAsJSONReparse (generateInfraSummary data)) "services" =
        some (ParsedContent.num (Int.ofNat svcs.length)) := by
  intro data svcs h
  obtain ⟨s, d, e⟩ := data
  have h' : s = some svcs := h
  subst h'
  rfl

/-- Witness for C8 at a one-service canonical value. -/
theorem c8_witness :
    jsonField (exportAsJSONReparse (generateInfraSummary
        ⟨some [⟨"api", "service", "node:18", "", "", ""⟩], none, none⟩)) "services" =
      some (ParsedContent.num (Int.ofNat 1)) :=
  c8_summary_roundtrip_service_count
    ⟨some [⟨"api", "service", "node:18", "", "", ""⟩], none, none⟩
    [⟨"api", "service", "node:18", "", "", ""⟩] rfl

/-- C10: the empty string port maps to the number 0 (`Number('') === 0`), so a
database entry with `port: ""` is normalized with port 0 rather than an absent
port; and the port is absent exactly for booleans, null, arrays, objects, and
strings on which `Number(...)` is NaN — such strings are necessarily
non-empty. -/
theorem c10_port_empty_string_zero :
    parseContentToNumber (some (ParsedContent.str "")) = some 0 ∧
    (normalizeToInfraData
        (some (.obj [("databases", .arr [.obj [("port", .str "")]])]))).databases =
      some [⟨"Unknown Database", "database", "", "", some 0⟩] ∧
    (∀ c : ParsedContent, parseContentToNumber (some c) = none ↔
      (match c with
       | .str s => s ≠ "" ∧ jsNumber s = none
       | .num _ => False
       | _ => True)) := by
  refine ⟨by decide, by decide, ?_⟩
  intro c
  cases c with
  | str s =>
      simp only [parseContentToNumber]
      constructor
      · intro hn
        refine ⟨?_, hn⟩
        intro hs
        subst hs
        exact absurd hn (by decide)
      · intro hp
        exact hp.2
  | num n => simp [parseContentToNumber]
  | bool b => simp [parseContentToNumber]
  | null => simp [parseContentToNumber]
  | arr xs => simp [parseContentToNumber]
  | obj kvs => simp [parseContentToNumber]

/-- C5 counterexample: in `{"services": null}` a Docker Compose tag key and the
literal `services` key are both present, yet the Docker Compose contribution
is 0 — the source tests the truthiness of the `services` value
(`obj.services`), not mere key presence, and `null` is falsy. -/
theorem c5_docker_counterexample :
    hasAnyKey [("services", ParsedContent.null)] dockerKeys = true ∧
    jsLookup [("services", ParsedContent.null)] "services" = some ParsedContent.null ∧
    dockerContrib [("services", ParsedContent.null)] = 0 ∧
    matchScore [("services", ParsedContent.null)] = 2 ∧
    (validateInfraStructure (.obj [("services", ParsedContent.null)])).confidence =
      Confidence.medium :=
  ⟨by decide, rfl, by decide, by decide, by decide⟩

/-- C5 (amended): `validateInfraStructure` adds the Docker Compose contribution
of +3 exactly when some Docker Compose tag key is present AND the value stored
under the literal `services` key is truthy; otherwise it contributes 0, and
the match score is the sum of the six rule contributions. -/
theorem c5_docker_contribution :
    ∀ kvs : List (String × ParsedContent),
      (dockerContrib kvs = 3 ↔
        ((∃ k ∈ dockerKeys, k ∈ objKeys kvs) ∧ truthyOpt (jsLookup kvs "services") = true)) ∧
      (dockerContrib kvs = 3 ∨ dockerContrib kvs = 0) ∧
      matchScore kvs =
        k8sContrib kvs + dockerContrib kvs + tfContrib kvs + infraContrib kvs +
          dbContrib kvs + configContrib kvs := by
  intro kvs
  have hkey : hasAnyKey kvs dockerKeys = true ↔ ∃ k ∈ dockerKeys, k ∈ objKeys kvs := by
    simp [hasAnyKey, List.any_eq_true, List.contains, List.elem_iff]
  refine ⟨?_, ?_, rfl⟩
  · unfold dockerContrib
    by_cases hc : (hasAnyKey kvs dockerKeys && truthyOpt (jsLookup kvs "services")) = true
    · rw [if_pos hc]
      have hc' := hc
      rw [Bool.and_eq_true] at hc'
      simp only [true_iff]
      exact ⟨hkey.mp hc'.1, hc'.2⟩
    · rw [if_neg hc]
      simp only [Bool.and_eq_true] at hc
      constructor
      · intro h03
        exact absurd h03 (by decide)
      · intro hp
        exact absurd ⟨hkey.mpr hp.1, hp.2⟩ hc
  · unfold dockerContrib
    by_cases hc : (hasAnyKey kvs dockerKeys && truthyOpt (jsLookup kvs "services")) = true
    · rw [if_pos hc]; exact Or.inl rfl
    · rw [if_neg hc]; exact Or.inr rfl

/-- C6: the environment section of the canonical result exists only for an
object root, is taken from the first truthy value of the
`environment || env || envVars || variables` chain (which must itself be an
object), and maps each source entry to its key paired with the coercion of its
own value: a source string passes through unchanged, a number or boolean is
stringified, and every other value (null, array, object) becomes the empty
string. -/
theorem c6_environment_values_strings :
    ∀ (d : Option ParsedContent) (env : List (String × String)),
      (normalizeToInfraData d).environment = some env →
      ∃ (kvs ekvs : List (String × ParsedContent)),
        d = some (ParsedContent.obj kvs) ∧
        jsOrChain [jsLookup kvs "environment", jsLookup kvs "env",
                   jsLookup kvs "envVars", jsLookup kvs "variables"] =
          some (ParsedContent.obj ekvs) ∧
        env = ekvs.map (fun p => (p.1,
          match p.2 with
          | ParsedContent.str s => s
          | ParsedContent.num n => toString n
          | ParsedContent.bool b => if b then "true" else "false"
          | _ => "")) := by
  intro d env h
  match d with
  | none => simp [normalizeToInfraData] at h
  | some (.str s) => simp [normalizeToInfraData] at h
  | some (.num n) => simp [normalizeToInfraData] at h
  | some (.bool b) => simp [normalizeToInfraData] at h
  | some .null => simp [normalizeToInfraData] at h
  | some (.arr xs) => simp [normalizeToInfraData] at h
  | some (.obj kvs) =>
      have h' : extractEnvironment kvs = some env := h
      rcases hchain : jsOrChain [jsLookup kvs "environment", jsLookup kvs "env",
          jsLookup kvs "envVars", jsLookup kvs "variables"] with _ | v
      · simp [extractEnvironment, hchain, truthyOpt] at h'
      · cases v with
        | obj ekvs =>
            refine ⟨kvs, ekvs, rfl, hchain, ?_⟩
            simp [extractEnvironment, hchain, truthyOpt, truthy] at h'
            subst h'
            clear hchain h
            induction ekvs with
            | nil => rfl
            | cons p rest ih =>
                obtain ⟨k, v⟩ := p
                cases v <;> simp only [List.map_cons, ih] <;> rfl
        | str s => simp [extractEnvironment, hchain, truthyOpt, truthy] at h'
        | num n => simp [extractEnvironment, hchain, truthyOpt, truthy] at h'
        | bool b => simp [extractEnvironment, hchain, truthyOpt, truthy] at h'
        | null => simp [extractEnvironment, hchain, truthyOpt, truthy] at h'
        | arr xs => simp [extractEnvironment, hchain, truthyOpt, truthy] at h'

/-- Witness for C6: a four-entry environment whose source values are a number,
a string, a boolean and an array, normalized to their coerced strings. -/
theorem c6_witness :
    ∃ (kvs ekvs : List (String × ParsedContent)),
      (some (ParsedContent.obj [("env", ParsedContent.obj
          [("K", ParsedContent.num 7), ("S", ParsedContent.str "x"),
           ("B", ParsedContent.bool true), ("A", ParsedContent.arr [])])]) :
         Option ParsedContent) = some (ParsedContent.obj kvs) ∧
      jsOrChain [jsLookup kvs "environment", jsLookup kvs "env",
                 jsLookup kvs "envVars", jsLookup kvs "variables"] =
        some (ParsedContent.obj ekvs) ∧
      [("K", "7"), ("S", "x"), ("B", "true"), ("A", "")] = ekvs.map (fun p => (p.1,
        match p.2 with
        | ParsedContent.str s => s
        | ParsedContent.num n => toString n
        | ParsedContent.bool b => if b then "true" else "false"
        | _ => "")) :=
  c6_environment_values_strings
    (some (ParsedContent.obj [("env", ParsedContent.obj
        [("K", ParsedContent.num 7), ("S", ParsedContent.str "x"),
         ("B", ParsedContent.bool true), ("A", ParsedContent.arr [])])]))
    [("K", "7"), ("S", "x"), ("B", "true"), ("A", "")]
    (by decide)

/-- Keys of an appended object: the appended key lists. -/
theorem objKeys_append (kvs extra : List (String × ParsedContent)) :
    objKeys (kvs ++ extra) = objKeys kvs ++ objKeys extra := by
  simp [objKeys]

/-- Adding entries never removes a tag-key hit. -/
theorem hasAnyKey_append_mono (kvs extra : List (String × ParsedContent)) (tags : List String)
    (h : hasAnyKey kvs tags = true) : hasAnyKey (kvs ++ extra) tags = true := by
  simp only [hasAnyKey, List.any_eq_true, objKeys_append] at h ⊢
  rcases h with ⟨t, ht, hc⟩
  refine ⟨t, ht, ?_⟩
  have hm : t ∈ objKeys kvs := by simpa [List.contains, List.elem_iff] using hc
  simp [List.contains, List.elem_iff, List.mem_append, hm]

/-- Entries whose keys all lie in the Kubernetes tag set never define
`services`. -/
theorem lookup_services_k8s_none (extra : List (String × ParsedContent))
    (h : ∀ p ∈ extra, p.1 ∈ k8sKeys) : List.lookup "services" extra = none := by
  induction extra with
  | nil => rfl
  | cons p rest ih =>
      have hp := h p (List.mem_cons_self p rest)
      have hne : ("services" == p.1) = false := by
        simp only [k8sKeys, List.mem_cons, List.not_mem_nil, or_false] at hp
        rcases hp with h1 | h1 | h1 | h1 <;> rw [h1] <;> decide
      obtain ⟨k, v⟩ := p
      simp only [List.lookup, hne]
      exact ih (fun q hq => h q (List.mem_cons_of_mem _ hq))

/-- Appending Kubernetes-tagged entries leaves the `services` lookup unchanged. -/
theorem jsLookup_append_k8s (kvs extra : List (String × ParsedContent))
    (h : ∀ p ∈ extra, p.1 ∈ k8sKeys) :
    jsLookup (kvs ++ extra) "services" = jsLookup kvs "services" := by
  unfold jsLookup
  rw [List.lookup_append, lookup_services_k8s_none extra h]
  cases List.lookup "services" kvs <;> rfl

/-- A key-presence contribution is monotone under appending entries. -/
theorem tagContrib_mono (kvs extra : List (String × ParsedContent)) (tags : List String)
    (w : Nat) :
    (if hasAnyKey kvs tags then w else 0) ≤ (if hasAnyKey (kvs ++ extra) tags then w else 0) := by
  by_cases hk : hasAnyKey kvs tags = true
  · rw [if_pos hk, if_pos (hasAnyKey_append_mono kvs extra tags hk)]
  · rw [if_neg hk]
    exact Nat.zero_le _

/-- The Docker Compose contribution is monotone under appending
Kubernetes-tagged entries. -/
theorem dockerContrib_mono_k8s (kvs extra : List (String × ParsedContent))
    (h : ∀ p ∈ extra, p.1 ∈ k8sKeys) :
    dockerContrib kvs ≤ dockerContrib (kvs ++ extra) := by
  unfold dockerContrib
  rw [jsLookup_append_k8s kvs extra h]
  by_cases hc : (hasAnyKey kvs dockerKeys && truthyOpt (jsLookup kvs "services")) = true
  · have hc2 : (hasAnyKey (kvs ++ extra) dockerKeys && truthyOpt (jsLookup kvs "services")) = true := by
      rw [Bool.and_eq_true] at hc ⊢
      exact ⟨hasAnyKey_append_mono kvs extra dockerKeys hc.1, hc.2⟩
    rw [if_pos hc, if_pos hc2]
  · rw [if_neg hc]
    exact Nat.zero_le _

/-- The confidence rank is monotone in the match score. -/
theorem confRank_confOf_mono {a b : Nat} (h : a ≤ b) :
    confRank (confOf a) ≤ confRank (confOf b) := by
  unfold confOf
  split_ifs <;> simp [confRank] <;> omega

/-- C4: adding entries whose keys lie in {apiVersion, kind, metadata, spec}
(with any values) never decreases the match score of `validateInfraStructure`
nor the reported confidence level (ranked low < medium < high). -/
theorem c4_classifier_monotonicity :
    ∀ (kvs extra : List (String × ParsedContent)),
      (∀ p ∈ extra, p.1 ∈ k8sKeys) →
      matchScore kvs ≤ matchScore (kvs ++ extra) ∧
      confRank (validateInfraStructure (ParsedContent.obj kvs)).confidence ≤
        confRank (validateInfraStructure (ParsedContent.obj (kvs ++ extra))).confidence := by
  intro kvs extra h
  have hms : matchScore kvs ≤ matchScore (kvs ++ extra) := by
    unfold matchScore
    have h1 := tagContrib_mono kvs extra k8sKeys 3
    have h2 := dockerContrib_mono_k8s kvs extra h
    have h3 := tagContrib_mono kvs extra tfKeys 2
    have h4 := tagContrib_mono kvs extra infraKeys 2
    have h5 := tagContrib_mono kvs extra dbKeys 1
    have h6 := tagContrib_mono kvs extra configKeys 1
    unfold k8sContrib tfContrib infraContrib dbContrib configContrib
    omega
  refine ⟨hms, ?_⟩
  have e1 : (validateInfraStructure (ParsedContent.obj kvs)).confidence =
      confOf (matchScore kvs) := rfl
  have e2 : (validateInfraStructure (ParsedContent.obj (kvs ++ extra))).confidence =
      confOf (matchScore (kvs ++ extra)) := rfl
  rw [e1, e2]
  exact confRank_confOf_mono hms

/-- Witness for C4: adding `kind` to an unrecognized object raises the score
from 0 to 3 and the confidence from low to high. -/
theorem c4_witness :
    matchScore [("foo", ParsedContent.null)] ≤
      matchScore ([("foo", ParsedContent.null)] ++ [("kind", ParsedContent.str "Deployment")]) ∧
    confRank (validateInfraStructure (ParsedContent.obj [("foo", ParsedContent.null)])).confidence ≤
      confRank (validateInfraStructure (ParsedContent.obj
        ([("foo", ParsedContent.null)] ++ [("kind", ParsedContent.str "Deployment")]))).confidence :=
  c4_classifier_monotonicity [("foo", ParsedContent.null)]
    [("kind", ParsedContent.str "Deployment")] (by decide)

/-- A string starting with a character other than `e` at index 2 is never the
environment node line. -/
theorem append_ne_envNode (p r : String) (c : Char) (hlen : 2 < p.data.length)
    (hc : p.data[2]? = some c) (hne : c ≠ 'e') : p ++ r ≠ envNodeLine := by
  intro h
  have hd : p.data ++ r.data = envNodeLine.data := by
    simpa [String.data_append] using congrArg String.data h
  have h2 : (p.data ++ r.data)[2]? = some c := by
    rw [List.getElem?_append_left hlen]
    exact hc
  rw [hd] at h2
  have h3 : envNodeLine.data[2]? = some 'e' := by decide
  rw [h3] at h2
  exact hne (Option.some.inj h2).symm

/-- C9 counterexample: with no services and a present-but-empty environment
mapping, the builder still emits the environment node and the `svc0 --> env`
edge — the source tests only truthiness of `data.environment` (an empty
object is truthy) and pushes the edge without checking that a service
exists. -/
theorem c9_env_counterexample :
    (InfraData.mk none none (some [])).services = none ∧
    (InfraData.mk none none (some [])).environment = some [] ∧
    makeMermaidLines (InfraData.mk none none (some [])) =
      ["graph TD", envNodeLine, envEdgeLine] :=
  ⟨rfl, rfl, by decide⟩

/-- C9 (amended): the builder emits the environment node followed by the
`svc0 --> env` edge exactly when the environment mapping is present (even
empty), regardless of whether any service exists; the node never occurs among
the earlier lines. -/
theorem c9_env_emission :
    ∀ data : InfraData, ∃ pre : List String,
      makeMermaidLines data =
        pre ++ (if data.environment.isSome then [envNodeLine, envEdgeLine] else []) ∧
      envNodeLine ∉ pre := by
  intro data
  obtain ⟨s, d, e⟩ := data
  refine ⟨["graph TD"] ++
      (match s with
       | some svcs => svcs.enum.map (fun p => svcNodeLine p.1 p.2)
       | none => []) ++
      (match d with
       | some dbs => dbs.enum.flatMap
          (fun p => [dbNodeLine p.1 p.2] ++
            (if hasFirstService ⟨s, d, e⟩ then [dbEdgeLine p.1] else []))
       | none => []), ?_, ?_⟩
  · show makeMermaidLines ⟨s, d, e⟩ = _
    unfold makeMermaidLines
    cases e <;> simp
  · intro hmem
    rcases List.mem_append.mp hmem with hmem2 | hdb
    · rcases List.mem_append.mp hmem2 with hg | hsvc
      · have hg2 : envNodeLine = "graph TD" := by simpa using hg
        exact absurd hg2 (by decide)
      · cases s with
        | none => simp at hsvc
        | some svcs =>
            rcases List.mem_map.mp hsvc with ⟨p, hp, hpe⟩
            unfold svcNodeLine at hpe
            exact append_ne_envNode "  svc" _ 's' (by decide) (by decide) (by decide) hpe
    · cases d with
      | none => simp at hdb
      | some dbs =>
          rcases List.mem_flatMap.mp hdb with ⟨p, hp, hin⟩
          rcases List.mem_append.mp hin with h1 | h2
          · have h1s : envNodeLine = dbNodeLine p.1 p.2 := by simpa using h1
            have h1e : dbNodeLine p.1 p.2 = envNodeLine := h1s.symm
            unfold dbNodeLine at h1e
            exact append_ne_envNode "  db" _ 'd' (by decide) (by decide) (by decide) h1e
          · have h2s : envNodeLine = dbEdgeLine p.1 := by
              by_cases hf : hasFirstService ⟨s, some dbs, e⟩ = true
              · rw [if_pos hf] at h2
                simpa using h2
              · rw [if_neg hf] at h2
                simp at h2
            have h2e : dbEdgeLine p.1 = envNodeLine := h2s.symm
            unfold dbEdgeLine at h2e
            exact append_ne_envNode "  svc0 --> db" _ 's' (by decide) (by decide) (by decide) h2e
